import Mathlib

/-!
Shallow embedding of the patient record-management service (src/main.py).

Modelling conventions:
- Python floats are modelled as rationals (`ℚ`); `round(x, 2)` is modelled as
  round-half-to-even at two decimal places over `ℚ`.
- A JSON object (a Python dict) is an association list `List (String × Value)`
  in insertion order, mirroring Python dict iteration-order semantics; dict
  assignment replaces an existing key in place and appends a fresh key.
- Pydantic models are structures; construction/validation from raw values is
  an explicit parse function returning `Except` with the list of violated
  constraints (pydantic enumerates one message per failing field).
- Pydantic v2 `model_dump` includes `@computed_field` properties, so the dump
  of a `Patient` contains `bmi` and `verdict` alongside the plain fields.
- HTTP handlers are pure functions from the persisted store (the contents of
  patients.json, read by load_data) to a result and the store after the
  handler returns (save_data is a write to that state; a raised HTTPException
  or ValidationError skips the save, so the error branches return the input
  store unchanged).
- Comparing a non-numeric stored value during sort would raise TypeError in
  Python; the embedding maps that unreachable-through-the-API case to 0.
-/

/-- JSON scalar values as they occur in patients.json. -/
inductive Value where
  | str (s : String)
  | int (n : Int)
  | rat (q : ℚ)
deriving DecidableEq, Repr

/-- A JSON object / Python dict in insertion order. -/
abbrev Rec : Type := List (String × Value)

/-- The persisted store: patient-id to stored record, in insertion order. -/
abbrev Store : Type := List (String × Rec)

/-- Python `k in d`. -/
def hasKey {α : Type} (l : List (String × α)) (k : String) : Bool :=
  (List.lookup k l).isSome

/-- Python dict assignment `d[k] = v`: replace in place when the key exists,
append otherwise. -/
def setKey {α : Type} (l : List (String × α)) (k : String) (v : α) :
    List (String × α) :=
  if (List.lookup k l).isSome then
    l.map (fun kv => if kv.1 = k then (k, v) else kv)
  else
    l ++ [(k, v)]

/-- Python `del d[k]`. -/
def delKey {α : Type} (l : List (String × α)) (k : String) :
    List (String × α) :=
  l.filter (fun kv => kv.1 ≠ k)

/-- Python `{**a, **b}`: keys of `a` in order with values overridden by `b`,
then keys of `b` absent from `a` in order. -/
def dictMerge (a b : Rec) : Rec :=
  a.map (fun kv => (kv.1, (List.lookup kv.1 b).getD kv.2)) ++
    b.filter (fun kv => (List.lookup kv.1 a).isNone)

/-- Round to the nearest integer, ties to even (Python `round` on a value
modelled exactly). -/
def roundHalfEven (q : ℚ) : ℤ :=
  if q - (⌊q⌋ : ℚ) < 1 / 2 then ⌊q⌋
  else if 1 / 2 < q - (⌊q⌋ : ℚ) then ⌊q⌋ + 1
  else if ⌊q⌋ % 2 = 0 then ⌊q⌋ else ⌊q⌋ + 1

/-- Python `round(q, 2)`. -/
def round2 (q : ℚ) : ℚ :=
  (roundHalfEven (q * 100) : ℚ) / 100

/-- The `Patient` pydantic model: the seven declared fields. -/
structure Patient where
  id : String
  name : String
  city : String
  age : Int
  gender : String
  height : ℚ
  weight : ℚ
deriving DecidableEq, Repr

/-- The field constraints pydantic enforces on `Patient`: age in (0, 120),
gender in the literal set, height and weight strictly positive.  Note there
is no constraint on `name` or `city` beyond being strings. -/
def Patient.Valid (p : Patient) : Prop :=
  0 < p.age ∧ p.age < 120 ∧
    (p.gender = "male" ∨ p.gender = "female" ∨ p.gender = "others") ∧
    0 < p.height ∧ 0 < p.weight

instance (p : Patient) : Decidable p.Valid := by
  unfold Patient.Valid
  infer_instance

/-- The computed field `bmi`: `round(weight / height ** 2, 2)`. -/
def Patient.bmi (p : Patient) : ℚ :=
  round2 (p.weight / p.height ^ 2)

/-- The computed field `verdict`: the if/elif chain over `bmi`. -/
def Patient.verdict (p : Patient) : String :=
  if p.bmi < 18.5 then "Underweight"
  else if p.bmi < 25 then "Normal"
  else if p.bmi < 30 then "Overweight"
  else "Obese"

/-- `patient.model_dump(exclude=["id"])`: field order, then the computed
fields `bmi` and `verdict` (pydantic v2 serialises computed fields). -/
def Patient.dumpNoId (p : Patient) : Rec :=
  [("name", .str p.name), ("city", .str p.city), ("age", .int p.age),
   ("gender", .str p.gender), ("height", .rat p.height),
   ("weight", .rat p.weight), ("bmi", .rat p.bmi),
   ("verdict", .str p.verdict)]

/-- `patient.model_dump()`: all fields including `id` and computed fields. -/
def Patient.dump (p : Patient) : Rec :=
  ("id", .str p.id) :: p.dumpNoId

/-- Numeric coercion pydantic applies to float fields (ints are accepted). -/
def asRatVal : Value → Option ℚ
  | .int n => some (n : ℚ)
  | .rat q => some q
  | .str _ => none

/-- Validate a required string field. -/
def parseStrField (r : Rec) (k : String) : Except String String :=
  match List.lookup k r with
  | some (.str s) => .ok s
  | some _ => .error (k ++ ": Input should be a valid string")
  | none => .error (k ++ ": Field required")

/-- Validate `age`: a required integer with `gt=0, lt=120`. -/
def parseAgeField (r : Rec) : Except String Int :=
  match List.lookup "age" r with
  | some (.int n) =>
    if n ≤ 0 then .error "age: Input should be greater than 0"
    else if 120 ≤ n then .error "age: Input should be less than 120"
    else .ok n
  | some _ => .error "age: Input should be a valid integer"
  | none => .error "age: Field required"

/-- Validate `gender`: a required literal out of male / female / others. -/
def parseGenderField (r : Rec) : Except String String :=
  match List.lookup "gender" r with
  | some (.str s) =>
    if s = "male" ∨ s = "female" ∨ s = "others" then .ok s
    else .error "gender: Input should be male, female or others"
  | some _ => .error "gender: Input should be a valid string"
  | none => .error "gender: Field required"

/-- Validate a required float field with `gt=0` (height, weight). -/
def parsePosField (r : Rec) (k : String) : Except String ℚ :=
  match List.lookup k r with
  | some v =>
    match asRatVal v with
    | some q =>
      if 0 < q then .ok q else .error (k ++ ": Input should be greater than 0")
    | none => .error (k ++ ": Input should be a valid number")
  | none => .error (k ++ ": Field required")

/-- The error list of one field parse (empty when the field is fine). -/
def errList {α : Type} : Except String α → List String
  | .ok _ => []
  | .error e => [e]

/-- `Patient(**raw)`: pydantic validation of a raw keyword dict.  Extra keys
(such as a stale `bmi` or `verdict` in the dict) are ignored; on failure the
error enumerates every violated field constraint in field order. -/
def Patient.mk? (r : Rec) : Except (List String) Patient :=
  match parseStrField r "id", parseStrField r "name",
      parseStrField r "city", parseAgeField r,
      parseGenderField r, parsePosField r "height",
      parsePosField r "weight" with
  | .ok i, .ok n, .ok c, .ok a, .ok g, .ok hq, .ok w =>
    .ok ⟨i, n, c, a, g, hq, w⟩
  | ei, en, ec, ea, eg, eh, ew =>
    .error (errList ei ++ errList en ++ errList ec ++ errList ea ++
      errList eg ++ errList eh ++ errList ew)

/-- The `PatientUpdate` pydantic model: every field optional; `none` means
the caller did not supply the field (pydantic tracks set fields). -/
structure PatientUpdate where
  name : Option String
  city : Option String
  age : Option Int
  gender : Option String
  height : Option ℚ
  weight : Option ℚ
deriving DecidableEq, Repr

/-- The payload-level constraints on `PatientUpdate` (`gt=0` on age, height
and weight, the gender literal set; note no upper bound on age here). -/
def PatientUpdate.Valid (u : PatientUpdate) : Prop :=
  (∀ a ∈ u.age, 0 < a) ∧
    (∀ g ∈ u.gender, g = "male" ∨ g = "female" ∨ g = "others") ∧
    (∀ hq ∈ u.height, 0 < hq) ∧ (∀ w ∈ u.weight, 0 < w)

/-- A dict with a single entry when the optional value is set. -/
def optEntry (k : String) (v : Option Value) : Rec :=
  match v with
  | some x => [(k, x)]
  | none => []

/-- `patient_update.model_dump(exclude_unset=True)`: only the supplied
fields, in field declaration order. -/
def PatientUpdate.dumpSet (u : PatientUpdate) : Rec :=
  optEntry "name" (u.name.map .str) ++ optEntry "city" (u.city.map .str) ++
    optEntry "age" (u.age.map .int) ++ optEntry "gender" (u.gender.map .str) ++
    optEntry "height" (u.height.map .rat) ++
    optEntry "weight" (u.weight.map .rat)

/-- Errors a handler surfaces: an HTTPException with a status code, or a
pydantic ValidationError with its per-field messages. -/
inductive ApiError where
  | httpError (code : Nat) (msg : String)
  | validationError (msgs : List String)
deriving DecidableEq, Repr

/-- GET /patient/{patient_id}: return the stored value for the id, 404 when
absent. -/
def view_patient (store : Store) (patient_id : String) : Except ApiError Rec :=
  match List.lookup patient_id store with
  | some r => .ok r
  | none => .error (.httpError 404 "Patient not found")

/-- The sort key `x.get(sort_by, 0)` of one stored record. -/
def Rec.sortVal (r : Rec) (k : String) : ℚ :=
  match List.lookup k r with
  | some (.int n) => (n : ℚ)
  | some (.rat q) => q
  | some (.str _) => 0
  | none => 0

/-- GET /sort: validate the query parameters, then stably sort the stored
records by the raw stored value of the named field (missing field ⇒ 0),
reversed comparisons when order is desc. -/
def sort_patients (store : Store) (sort_by : String) (order : String) :
    Except ApiError (List Rec) :=
  if sort_by ∉ (["height", "weight", "bmi"] : List String) then
    .error (.httpError 400 "Invalid field. Choose from height, weight, bmi")
  else if order ∉ (["asc", "desc"] : List String) then
    .error (.httpError 400 "Order must be asc or desc")
  else
    let reverse := order = "desc"
    .ok ((store.map Prod.snd).mergeSort (fun a b =>
      if reverse then decide (Rec.sortVal b sort_by ≤ Rec.sortVal a sort_by)
      else decide (Rec.sortVal a sort_by ≤ Rec.sortVal b sort_by)))

/-- POST /create: reject a duplicate id with 400, otherwise store
`patient.model_dump(exclude=["id"])` under the id and answer 201 with the
full dump.  The second component is the store after the handler. -/
def create_patient (store : Store) (patient : Patient) :
    Except ApiError Rec × Store :=
  if hasKey store patient.id then
    (.error (.httpError 400 "Patient already exists"), store)
  else
    (.ok patient.dump, setKey store patient.id patient.dumpNoId)

/-- PUT /edit/{patient_id}: 404 when the id is absent; otherwise merge the
supplied fields over the stored dict, force `id` to the path id, re-validate
the merged dict as a full Patient, and store its fresh dump.  A
ValidationError leaves the store untouched. -/
def update_patient (store : Store) (patient_id : String)
    (patient_update : PatientUpdate) : Except ApiError Patient × Store :=
  match List.lookup patient_id store with
  | none => (.error (.httpError 404 "Patient not found"), store)
  | some existing =>
    let updates := patient_update.dumpSet
    let merged := setKey (dictMerge existing updates) "id" (.str patient_id)
    match Patient.mk? merged with
    | .error es => (.error (.validationError es), store)
    | .ok patient_obj =>
      (.ok patient_obj, setKey store patient_id patient_obj.dumpNoId)

/-- DELETE /delete/{patient_id}: 404 when absent, otherwise remove the entry
and save. -/
def delete_patient (store : Store) (patient_id : String) :
    Except ApiError String × Store :=
  if hasKey store patient_id then
    (.ok "patient deleted", delKey store patient_id)
  else
    (.error (.httpError 404 "Patient not found"), store)

/-- Modelled from the spec: the sort key the specification describes for
`sort_by=bmi` — "computing bmi on the fly" from the record's stored height
and weight (the source instead reads the stored `bmi` value). -/
def specOnTheFlyBmi (r : Rec) : ℚ :=
  round2 (Rec.sortVal r "weight" / (Rec.sortVal r "height") ^ 2)

/-- The merge described in §4.1: every supplied field overwrites the
existing one, absent fields keep the existing value, id is kept. -/
def applyUpdate (q : Patient) (u : PatientUpdate) : Patient :=
  { id := q.id, name := u.name.getD q.name, city := u.city.getD q.city,
    age := u.age.getD q.age, gender := u.gender.getD q.gender,
    height := u.height.getD q.height, weight := u.weight.getD q.weight }

instance {ε α : Type} [DecidableEq ε] [DecidableEq α] :
    DecidableEq (Except ε α) := fun x y =>
  match x, y with
  | .ok a, .ok b =>
    if h : a = b then isTrue (by rw [h]) else isFalse (by simp [h])
  | .error a, .error b =>
    if h : a = b then isTrue (by rw [h]) else isFalse (by simp [h])
  | .ok _, .error _ => isFalse (by simp)
  | .error _, .ok _ => isFalse (by simp)

/-- A demonstration patient used in the concrete instances below. -/
def demoPatient : Patient :=
  ⟨"P001", "Ananya", "Guwahati", 28, "female", 7 / 4, 70⟩

/-- A second demonstration patient. -/
def demoPatient3 : Patient :=
  ⟨"P1", "Bholi", "Pune", 40, "female", 8 / 5, 90⟩

/-- A demonstration store holding both demo patients. -/
def demoStore : Store :=
  [("P001", demoPatient.dumpNoId), ("P1", demoPatient3.dumpNoId)]

/-- A raw stored record with height and weight but no stored bmi entry (as a
hand-edited patients.json could contain). -/
def recA : Rec := [("height", .rat (8 / 5)), ("weight", .rat 90)]

/-- A raw stored record carrying a stale stored bmi entry of 20. -/
def recB : Rec :=
  [("height", .rat (7 / 4)), ("weight", .rat 70), ("bmi", .rat 20)]

/-- An update payload supplying only the city. -/
def demoUpdateCity : PatientUpdate := ⟨none, some "Delhi", none, none, none, none⟩

/-- An update payload supplying only the weight. -/
def demoUpdateWeight : PatientUpdate := ⟨none, none, none, none, none, some 90⟩

/-- An update payload supplying only an age of 150 (accepted by the payload
model, rejected by full Patient validation). -/
def demoUpdateAge150 : PatientUpdate := ⟨none, none, some 150, none, none, none⟩

/-- The ascending bmi comparison the sort route uses. -/
def bmiAscLe : Rec → Rec → Bool :=
  fun a b => decide (Rec.sortVal a "bmi" ≤ Rec.sortVal b "bmi")

/-- The descending bmi comparison the sort route uses. -/
def bmiDescLe : Rec → Rec → Bool :=
  fun a b => decide (Rec.sortVal b "bmi" ≤ Rec.sortVal a "bmi")

theorem lookup_map_replace {α : Type} (l : List (String × α)) (k k2 : String)
    (v : α) (h : k2 ≠ k) :
    List.lookup k2 (l.map (fun kv => if kv.1 = k then (k, v) else kv)) =
      List.lookup k2 l := by
  induction l with
  | nil => rfl
  | cons kv tl ih =>
    obtain ⟨k1, v1⟩ := kv
    by_cases hk : k1 = k
    · subst hk
      rw [List.map_cons,
        show (if (k1, v1).1 = k1 then (k1, v) else (k1, v1)) = (k1, v) from
          if_pos rfl]
      simp only [List.lookup_cons, beq_eq_false_iff_ne.mpr h]
      exact ih
    · simp only [List.map_cons, if_neg hk, List.lookup_cons]
      cases hb : (k2 == k1)
      · simp only []
        exact ih
      · rfl

theorem lookup_setKey_self {α : Type} (l : List (String × α)) (k : String)
    (v : α) : List.lookup k (setKey l k v) = some v := by
  unfold setKey
  split
  · rename_i hs
    induction l with
    | nil => simp at hs
    | cons kv tl ih =>
      obtain ⟨k1, v1⟩ := kv
      by_cases hk : k1 = k
      · simp only [List.map_cons, if_pos hk, List.lookup_cons, beq_self_eq_true]
      · have hne : (k == k1) = false :=
          beq_eq_false_iff_ne.mpr fun he => hk he.symm
        simp only [List.map_cons, if_neg hk, List.lookup_cons, hne]
        apply ih
        rw [List.lookup_cons] at hs
        simp only [hne] at hs
        exact hs
  · rename_i hs
    rw [List.lookup_append]
    cases hval : List.lookup k l with
    | some b => exact absurd (by simp [hval]) hs
    | none => simp

theorem lookup_setKey_ne {α : Type} (l : List (String × α)) (k k2 : String)
    (v : α) (h : k2 ≠ k) :
    List.lookup k2 (setKey l k v) = List.lookup k2 l := by
  unfold setKey
  split
  · exact lookup_map_replace l k k2 v h
  · rw [List.lookup_append]
    have h2 : List.lookup k2 [(k, v)] = none := by
      rw [List.lookup_cons]
      simp only [beq_eq_false_iff_ne.mpr h, List.lookup_nil]
    rw [h2]
    cases hval : List.lookup k2 l <;> rfl

theorem lookup_delKey_self {α : Type} (l : List (String × α)) (k : String) :
    List.lookup k (delKey l k) = none := by
  unfold delKey
  rw [List.lookup_eq_none_iff]
  intro p hp
  have hmem := (List.mem_filter.mp hp).2
  simp only [decide_eq_true_eq] at hmem
  simp only [bne_iff_ne, ne_eq]
  exact fun he => hmem he.symm

theorem lookup_delKey_ne {α : Type} (l : List (String × α)) (k k2 : String)
    (h : k2 ≠ k) : List.lookup k2 (delKey l k) = List.lookup k2 l := by
  unfold delKey
  induction l with
  | nil => rfl
  | cons kv tl ih =>
    obtain ⟨k1, v1⟩ := kv
    rw [List.filter_cons]
    by_cases hk : k1 = k
    · rw [if_neg (by simp [hk])]
      rw [List.lookup_cons]
      simp only [show (k2 == k1) = false from
        beq_eq_false_iff_ne.mpr (by rw [hk]; exact h)]
      exact ih
    · rw [if_pos (by simpa using hk)]
      rw [List.lookup_cons, List.lookup_cons]
      cases hb : (k2 == k1)
      · simp only []
        exact ih
      · rfl

theorem abs_sub_roundHalfEven (x : ℚ) :
    |x - (roundHalfEven x : ℚ)| ≤ 1 / 2 := by
  have hfl : (⌊x⌋ : ℚ) ≤ x := Int.floor_le x
  have hub : x < (⌊x⌋ : ℚ) + 1 := Int.lt_floor_add_one x
  unfold roundHalfEven
  split
  · rename_i h1
    rw [abs_of_nonneg (by linarith)]
    linarith
  · rename_i h1
    split
    · rename_i h2
      push_cast
      rw [abs_of_nonpos (by linarith)]
      linarith
    · rename_i h2
      have he : x - (⌊x⌋ : ℚ) = 1 / 2 :=
        le_antisymm (not_lt.mp h2) (not_lt.mp h1)
      split
      · rw [abs_of_nonneg (by linarith)]
        linarith
      · push_cast
        rw [abs_of_nonpos (by linarith)]
        linarith


theorem roundHalfEven_eq_of_lt (q : ℚ) (n : ℤ) (h0 : (n : ℚ) ≤ q)
    (h1 : q - (n : ℚ) < 1 / 2) : roundHalfEven q = n := by
  have hf : ⌊q⌋ = n := Int.floor_eq_iff.mpr ⟨h0, by linarith⟩
  unfold roundHalfEven
  rw [hf, if_pos h1]

theorem roundHalfEven_eq_of_gt (q : ℚ) (n : ℤ) (h0 : (n : ℚ) ≤ q)
    (h2 : q < (n : ℚ) + 1) (h1 : 1 / 2 < q - (n : ℚ)) :
    roundHalfEven q = n + 1 := by
  have hf : ⌊q⌋ = n := Int.floor_eq_iff.mpr ⟨h0, by linarith⟩
  unfold roundHalfEven
  rw [hf, if_neg (by linarith), if_pos h1]

theorem demoPatient_bmi : demoPatient.bmi = 1143 / 50 := by
  show round2 (70 / (7 / 4 : ℚ) ^ 2) = 1143 / 50
  unfold round2
  rw [roundHalfEven_eq_of_gt (70 / (7 / 4 : ℚ) ^ 2 * 100) 2285 (by norm_num)
    (by norm_num) (by norm_num)]
  norm_num

theorem demoPatient_verdict : demoPatient.verdict = "Normal" := by
  unfold Patient.verdict
  rw [demoPatient_bmi]
  norm_num

theorem demoPatient3_bmi : demoPatient3.bmi = 879 / 25 := by
  show round2 (90 / (8 / 5 : ℚ) ^ 2) = 879 / 25
  unfold round2
  rw [roundHalfEven_eq_of_gt (90 / (8 / 5 : ℚ) ^ 2 * 100) 3515 (by norm_num)
    (by norm_num) (by norm_num)]
  norm_num

theorem mk?_of_entries (r : Rec) (i n c : String) (a : Int) (g : String)
    (hq w : ℚ)
    (hi : List.lookup "id" r = some (.str i))
    (hn : List.lookup "name" r = some (.str n))
    (hc : List.lookup "city" r = some (.str c))
    (ha : List.lookup "age" r = some (.int a))
    (hg : List.lookup "gender" r = some (.str g))
    (hh : List.lookup "height" r = some (.rat hq))
    (hw : List.lookup "weight" r = some (.rat w))
    (h1 : 0 < a) (h2 : a < 120)
    (h3 : g = "male" ∨ g = "female" ∨ g = "others")
    (h4 : 0 < hq) (h5 : 0 < w) :
    Patient.mk? r = .ok ⟨i, n, c, a, g, hq, w⟩ := by
  unfold Patient.mk?
  rw [show parseStrField r "id" = .ok i from by unfold parseStrField; rw [hi]]
  rw [show parseStrField r "name" = .ok n from by
    unfold parseStrField; rw [hn]]
  rw [show parseStrField r "city" = .ok c from by
    unfold parseStrField; rw [hc]]
  rw [show parseAgeField r = .ok a from by
    unfold parseAgeField
    rw [ha]
    dsimp only
    rw [if_neg (by omega), if_neg (by omega)]]
  rw [show parseGenderField r = .ok g from by
    unfold parseGenderField
    rw [hg]
    dsimp only
    rw [if_pos h3]]
  rw [show parsePosField r "height" = .ok hq from by
    unfold parsePosField
    rw [hh]
    dsimp only [asRatVal]
    rw [if_pos h4]]
  rw [show parsePosField r "weight" = .ok w from by
    unfold parsePosField
    rw [hw]
    dsimp only [asRatVal]
    rw [if_pos h5]]

theorem mk?_err_age (r : Rec) (i n c : String) (a : Int) (g : String)
    (hq w : ℚ)
    (hi : List.lookup "id" r = some (.str i))
    (hn : List.lookup "name" r = some (.str n))
    (hc : List.lookup "city" r = some (.str c))
    (ha : List.lookup "age" r = some (.int a))
    (hg : List.lookup "gender" r = some (.str g))
    (hh : List.lookup "height" r = some (.rat hq))
    (hw : List.lookup "weight" r = some (.rat w))
    (h2 : 120 ≤ a)
    (h3 : g = "male" ∨ g = "female" ∨ g = "others")
    (h4 : 0 < hq) (h5 : 0 < w) :
    Patient.mk? r = .error ["age: Input should be less than 120"] := by
  unfold Patient.mk?
  rw [show parseStrField r "id" = .ok i from by unfold parseStrField; rw [hi]]
  rw [show parseStrField r "name" = .ok n from by
    unfold parseStrField; rw [hn]]
  rw [show parseStrField r "city" = .ok c from by
    unfold parseStrField; rw [hc]]
  rw [show parseAgeField r =
      .error "age: Input should be less than 120" from by
    unfold parseAgeField
    rw [ha]
    dsimp only
    rw [if_neg (by omega), if_pos h2]]
  rw [show parseGenderField r = .ok g from by
    unfold parseGenderField
    rw [hg]
    dsimp only
    rw [if_pos h3]]
  rw [show parsePosField r "height" = .ok hq from by
    unfold parsePosField
    rw [hh]
    dsimp only [asRatVal]
    rw [if_pos h4]]
  rw [show parsePosField r "weight" = .ok w from by
    unfold parsePosField
    rw [hw]
    dsimp only [asRatVal]
    rw [if_pos h5]]
  rfl

theorem lookup_dumpSet (u : PatientUpdate) :
    List.lookup "name" u.dumpSet = u.name.map Value.str ∧
    List.lookup "city" u.dumpSet = u.city.map Value.str ∧
    List.lookup "age" u.dumpSet = u.age.map Value.int ∧
    List.lookup "gender" u.dumpSet = u.gender.map Value.str ∧
    List.lookup "height" u.dumpSet = u.height.map Value.rat ∧
    List.lookup "weight" u.dumpSet = u.weight.map Value.rat := by
  obtain ⟨un, uc, ua, ug, uh, uw⟩ := u
  cases un <;> cases uc <;> cases ua <;> cases ug <;> cases uh <;> cases uw <;>
    exact ⟨rfl, rfl, rfl, rfl, rfl, rfl⟩

theorem update_patient_ok (store : Store) (pid : String) (q : Patient)
    (u : PatientUpdate) (hs : List.lookup pid store = some q.dumpNoId)
    (hid : q.id = pid) (hv : (applyUpdate q u).Valid) :
    update_patient store pid u =
      (.ok (applyUpdate q u), setKey store pid (applyUpdate q u).dumpNoId) := by
  obtain ⟨hv1, hv2, hv3, hv4, hv5⟩ := hv
  have hds := lookup_dumpSet u
  have hmk : Patient.mk? (setKey (dictMerge q.dumpNoId u.dumpSet) "id"
      (Value.str pid)) = .ok (applyUpdate q u) := by
    rw [show applyUpdate q u =
        ⟨pid, u.name.getD q.name, u.city.getD q.city, u.age.getD q.age,
         u.gender.getD q.gender, u.height.getD q.height,
         u.weight.getD q.weight⟩ from by unfold applyUpdate; rw [hid]]
    apply mk?_of_entries
    · exact lookup_setKey_self _ "id" (Value.str pid)
    · rw [lookup_setKey_ne _ _ _ _ (by decide)]
      show some ((List.lookup "name" u.dumpSet).getD (.str q.name)) = _
      rw [hds.1]
      cases u.name <;> rfl
    · rw [lookup_setKey_ne _ _ _ _ (by decide)]
      show some ((List.lookup "city" u.dumpSet).getD (.str q.city)) = _
      rw [hds.2.1]
      cases u.city <;> rfl
    · rw [lookup_setKey_ne _ _ _ _ (by decide)]
      show some ((List.lookup "age" u.dumpSet).getD (.int q.age)) = _
      rw [hds.2.2.1]
      cases u.age <;> rfl
    · rw [lookup_setKey_ne _ _ _ _ (by decide)]
      show some ((List.lookup "gender" u.dumpSet).getD (.str q.gender)) = _
      rw [hds.2.2.2.1]
      cases u.gender <;> rfl
    · rw [lookup_setKey_ne _ _ _ _ (by decide)]
      show some ((List.lookup "height" u.dumpSet).getD (.rat q.height)) = _
      rw [hds.2.2.2.2.1]
      cases u.height <;> rfl
    · rw [lookup_setKey_ne _ _ _ _ (by decide)]
      show some ((List.lookup "weight" u.dumpSet).getD (.rat q.weight)) = _
      rw [hds.2.2.2.2.2]
      cases u.weight <;> rfl
    · exact hv1
    · exact hv2
    · exact hv3
    · exact hv4
    · exact hv5
  unfold update_patient
  rw [hs]
  simp only [hmk]

theorem sort_patients_asc (store : Store) :
    sort_patients store "bmi" "asc" =
      .ok ((store.map Prod.snd).mergeSort bmiAscLe) := rfl

theorem sort_patients_desc (store : Store) :
    sort_patients store "bmi" "desc" =
      .ok ((store.map Prod.snd).mergeSort bmiDescLe) := rfl

theorem sort_demo_asc :
    sort_patients [("A", recA), ("B", recB)] "bmi" "asc" =
      .ok [recA, recB] := by
  rw [sort_patients_asc]
  congr 1
  show List.mergeSort [recA, recB] bmiAscLe = [recA, recB]
  apply List.mergeSort_of_sorted
  refine List.pairwise_cons.mpr ⟨?_, List.pairwise_singleton _ _⟩
  intro b hb
  rw [List.mem_singleton] at hb
  subst hb
  show bmiAscLe recA recB = true
  unfold bmiAscLe
  rw [show Rec.sortVal recA "bmi" = 0 from rfl,
    show Rec.sortVal recB "bmi" = 20 from rfl]
  exact decide_eq_true (by norm_num)

theorem specOnTheFlyBmi_recA : specOnTheFlyBmi recA = 879 / 25 := by
  show round2 ((90 : ℚ) / (8 / 5 : ℚ) ^ 2) = 879 / 25
  unfold round2
  rw [roundHalfEven_eq_of_gt ((90 : ℚ) / (8 / 5 : ℚ) ^ 2 * 100) 3515
    (by norm_num) (by norm_num) (by norm_num)]
  norm_num

theorem specOnTheFlyBmi_recB : specOnTheFlyBmi recB = 1143 / 50 := by
  show round2 ((70 : ℚ) / (7 / 4 : ℚ) ^ 2) = 1143 / 50
  unfold round2
  rw [roundHalfEven_eq_of_gt ((70 : ℚ) / (7 / 4 : ℚ) ^ 2 * 100) 2285
    (by norm_num) (by norm_num) (by norm_num)]
  norm_num

theorem demoUpdatedWeight_bmi :
    (applyUpdate demoPatient demoUpdateWeight).bmi = 2939 / 100 := by
  show round2 ((90 : ℚ) / (7 / 4 : ℚ) ^ 2) = 2939 / 100
  unfold round2
  rw [roundHalfEven_eq_of_gt ((90 : ℚ) / (7 / 4 : ℚ) ^ 2 * 100) 2938
    (by norm_num) (by norm_num) (by norm_num)]
  norm_num

/-- C4: for every patient, `bmi` is `weight / height^2` rounded to two
decimal places (an integer number of hundredths within half a hundredth of
the exact ratio); in particular height 1.75 and weight 70 give bmi 22.86,
and height 1.6 and weight 90 give bmi 35.16. -/
theorem C4_bmi_formula :
    (∀ p : Patient, ∃ n : ℤ, p.bmi = (n : ℚ) / 100 ∧
      |p.weight / p.height ^ 2 - p.bmi| ≤ 1 / 200) ∧
    (Patient.mk "P001" "A" "C" 30 "male" (7 / 4) 70).bmi = 22.86 ∧
    (Patient.mk "P002" "B" "D" 30 "male" (8 / 5) 90).bmi = 35.16 := by
  refine ⟨fun p => ⟨roundHalfEven (p.weight / p.height ^ 2 * 100), rfl, ?_⟩,
    ?_, ?_⟩
  · have h := abs_sub_roundHalfEven (p.weight / p.height ^ 2 * 100)
    rw [show p.weight / p.height ^ 2 - p.bmi =
        (p.weight / p.height ^ 2 * 100 -
          (roundHalfEven (p.weight / p.height ^ 2 * 100) : ℚ)) / 100 from by
      unfold Patient.bmi round2
      ring]
    rw [abs_div, abs_of_pos (by norm_num : (0 : ℚ) < 100)]
    linarith
  · show round2 (70 / (7 / 4 : ℚ) ^ 2) = 22.86
    unfold round2
    rw [roundHalfEven_eq_of_gt (70 / (7 / 4 : ℚ) ^ 2 * 100) 2285 (by norm_num)
      (by norm_num) (by norm_num)]
    norm_num
  · show round2 (90 / (8 / 5 : ℚ) ^ 2) = 35.16
    unfold round2
    rw [roundHalfEven_eq_of_gt (90 / (8 / 5 : ℚ) ^ 2 * 100) 3515 (by norm_num)
      (by norm_num) (by norm_num)]
    norm_num

/-- C5: `verdict` is the categorical function of `bmi` with half-open lower
bounds: below 18.5 Underweight, then Normal, then Overweight from 25, then
Obese from 30; a bmi of exactly 18.5 is Normal, exactly 25 is Overweight and
exactly 30 is Obese. -/
theorem C5_verdict_categories :
    (∀ p : Patient,
      (p.verdict = "Underweight" ↔ p.bmi < 18.5) ∧
      (p.verdict = "Normal" ↔ 18.5 ≤ p.bmi ∧ p.bmi < 25) ∧
      (p.verdict = "Overweight" ↔ 25 ≤ p.bmi ∧ p.bmi < 30) ∧
      (p.verdict = "Obese" ↔ 30 ≤ p.bmi)) ∧
    (Patient.mk "B1" "n" "c" 30 "male" 1 (37 / 2)).verdict = "Normal" ∧
    (Patient.mk "B2" "n" "c" 30 "male" 1 25).verdict = "Overweight" ∧
    (Patient.mk "B3" "n" "c" 30 "male" 1 30).verdict = "Obese" := by
  refine ⟨fun p => ?_, ?_, ?_, ?_⟩
  · unfold Patient.verdict
    split_ifs with h1 h2 h3 <;>
      refine ⟨⟨fun hs => ?_, fun hb => ?_⟩, ⟨fun hs => ?_, fun hb => ?_⟩,
        ⟨fun hs => ?_, fun hb => ?_⟩, ⟨fun hs => ?_, fun hb => ?_⟩⟩ <;>
      first
        | rfl
        | linarith
        | exact absurd hs (by decide)
        | exact ⟨by linarith, by linarith⟩
  · have hb1 : (Patient.mk "B1" "n" "c" 30 "male" 1 (37 / 2)).bmi = 37 / 2 := by
      show round2 ((37 / 2 : ℚ) / 1 ^ 2) = 37 / 2
      unfold round2
      rw [roundHalfEven_eq_of_lt ((37 / 2 : ℚ) / 1 ^ 2 * 100) 1850
        (by norm_num) (by norm_num)]
      norm_num
    unfold Patient.verdict
    rw [hb1]
    norm_num
  · have hb2 : (Patient.mk "B2" "n" "c" 30 "male" 1 25).bmi = 25 := by
      show round2 ((25 : ℚ) / 1 ^ 2) = 25
      unfold round2
      rw [roundHalfEven_eq_of_lt ((25 : ℚ) / 1 ^ 2 * 100) 2500 (by norm_num)
        (by norm_num)]
      norm_num
    unfold Patient.verdict
    rw [hb2]
    norm_num
  · have hb3 : (Patient.mk "B3" "n" "c" 30 "male" 1 30).bmi = 30 := by
      show round2 ((30 : ℚ) / 1 ^ 2) = 30
      unfold round2
      rw [roundHalfEven_eq_of_lt ((30 : ℚ) / 1 ^ 2 * 100) 3000 (by norm_num)
        (by norm_num)]
      norm_num
    unfold Patient.verdict
    rw [hb3]
    norm_num

/-- C1 as stated is false on the code: the value persisted by create does
contain the derived fields.  Creating the demo patient stores a record whose
bmi entry is 22.86 and whose verdict entry is Normal. -/
theorem C1_counterexample :
    List.lookup "P001" (create_patient [] demoPatient).2 =
      some demoPatient.dumpNoId ∧
    List.lookup "bmi" demoPatient.dumpNoId = some (.rat 22.86) ∧
    List.lookup "verdict" demoPatient.dumpNoId = some (.str "Normal") := by
  refine ⟨rfl, ?_, ?_⟩
  · show some (Value.rat demoPatient.bmi) = some (.rat 22.86)
    rw [demoPatient_bmi, show (22.86 : ℚ) = 1143 / 50 from by norm_num]
  · show some (Value.str demoPatient.verdict) = some (.str "Normal")
    rw [demoPatient_verdict]

/-- C1 (amended): the value persisted under the patient id by a successful
create, and likewise by a successful update, is the full pydantic dump — the
six plain fields together with `bmi` and `verdict` computed from height and
weight at write time — and a read returns the persisted record as-is rather
than recomputing the derived fields. -/
theorem C1_derived_fields_persisted :
    (∀ (store : Store) (p : Patient), hasKey store p.id = false →
      List.lookup p.id (create_patient store p).2 = some p.dumpNoId ∧
      List.lookup "bmi" p.dumpNoId = some (.rat p.bmi) ∧
      List.lookup "verdict" p.dumpNoId = some (.str p.verdict)) ∧
    (∀ (store : Store) (pid : String) (u : PatientUpdate) (p : Patient),
      (update_patient store pid u).1 = .ok p →
      List.lookup pid (update_patient store pid u).2 = some p.dumpNoId ∧
      List.lookup "bmi" p.dumpNoId = some (.rat p.bmi) ∧
      List.lookup "verdict" p.dumpNoId = some (.str p.verdict)) ∧
    (∀ (store : Store) (pid : String) (r : Rec),
      List.lookup pid store = some r → view_patient store pid = .ok r) := by
  refine ⟨?_, ?_, ?_⟩
  · intro store p hk
    refine ⟨?_, rfl, rfl⟩
    unfold create_patient
    rw [if_neg (by rw [hk]; exact Bool.false_ne_true)]
    exact lookup_setKey_self store p.id p.dumpNoId
  · intro store pid u p h
    refine ⟨?_, rfl, rfl⟩
    unfold update_patient at h ⊢
    cases hl : List.lookup pid store with
    | none =>
      simp only [hl] at h
      exact Except.noConfusion h
    | some ex =>
      simp only [hl] at h ⊢
      cases hmk : Patient.mk? (setKey (dictMerge ex u.dumpSet) "id"
          (Value.str pid)) with
      | error es =>
        simp only [hmk] at h
        exact Except.noConfusion h
      | ok pobj =>
        simp only [hmk] at h ⊢
        injection h with h2
        subst h2
        exact lookup_setKey_self store pid pobj.dumpNoId
  · intro store pid r h
    unfold view_patient
    rw [h]

/-- Witness for C1 (amended): a concrete create, a concrete successful
update, and a concrete read. -/
theorem C1_witness :
    List.lookup "P001" (create_patient [] demoPatient).2 =
      some demoPatient.dumpNoId ∧
    List.lookup "P001"
        (update_patient [("P001", demoPatient.dumpNoId)] "P001"
          demoUpdateCity).2 =
      some (applyUpdate demoPatient demoUpdateCity).dumpNoId ∧
    view_patient demoStore "P001" = .ok demoPatient.dumpNoId :=
  ⟨(C1_derived_fields_persisted.1 [] demoPatient rfl).1,
   (C1_derived_fields_persisted.2.1 [("P001", demoPatient.dumpNoId)] "P001"
     demoUpdateCity (applyUpdate demoPatient demoUpdateCity)
     (by rw [update_patient_ok [("P001", demoPatient.dumpNoId)] "P001"
         demoPatient demoUpdateCity rfl rfl
         ⟨by decide, by decide, Or.inr (Or.inl rfl),
          show (0 : ℚ) < 7 / 4 from by norm_num,
          show (0 : ℚ) < 70 from by norm_num⟩])).1,
   C1_derived_fields_persisted.2.2 demoStore "P001" demoPatient.dumpNoId rfl⟩

/-- C3 as stated is false on the code: get returns the stored value
verbatim, and the stored value carries no id entry, so the response does not
combine the key with the value. -/
theorem C3_counterexample :
    view_patient [("P1", demoPatient3.dumpNoId)] "P1" =
      .ok demoPatient3.dumpNoId ∧
    List.lookup "id" demoPatient3.dumpNoId = none :=
  ⟨rfl, rfl⟩

/-- C3 (amended): for a present id, get returns exactly the stored value,
which contains no id field (the id is not reconstructed from the key); for
an absent id get fails with 404 NotFound. -/
theorem C3_get_returns_stored_value :
    (∀ (store : Store) (pid : String) (r : Rec),
      List.lookup pid store = some r → view_patient store pid = .ok r) ∧
    (∀ (store : Store) (pid : String),
      List.lookup pid store = none →
        view_patient store pid = .error (.httpError 404 "Patient not found")) ∧
    (∀ p : Patient, List.lookup "id" p.dumpNoId = none) := by
  refine ⟨?_, ?_, fun p => rfl⟩
  · intro store pid r h
    unfold view_patient
    rw [h]
  · intro store pid h
    unfold view_patient
    rw [h]

/-- Witness for C3 (amended) at a present and at an absent id. -/
theorem C3_witness :
    view_patient demoStore "P1" = .ok demoPatient3.dumpNoId ∧
    view_patient ([] : Store) "P1" =
      .error (.httpError 404 "Patient not found") :=
  ⟨C3_get_returns_stored_value.1 demoStore "P1" demoPatient3.dumpNoId rfl,
   C3_get_returns_stored_value.2.1 [] "P1" rfl⟩

/-- C6 as stated is false on the code: the Patient model has no non-empty
constraint on name or city, so construction with both empty succeeds. -/
theorem C6_counterexample :
    Patient.mk? [("id", .str "P9"), ("name", .str ""), ("city", .str ""),
      ("age", .int 30), ("gender", .str "male"), ("height", .rat (7 / 4)),
      ("weight", .rat 70)] = .ok ⟨"P9", "", "", 30, "male", 7 / 4, 70⟩ :=
  mk?_of_entries _ "P9" "" "" 30 "male" (7 / 4) 70 rfl rfl rfl rfl rfl rfl rfl
    (by decide) (by decide) (Or.inl rfl) (by norm_num) (by norm_num)

/-- C6 (amended): construction only requires name and city to be present
strings — the empty string is accepted; with the age, gender, height and
weight constraints satisfied, construction succeeds for every name and city
including empty ones. -/
theorem C6_empty_name_city_accepted :
    ∀ (i n c g : String) (a : Int) (hq w : ℚ),
      0 < a → a < 120 → (g = "male" ∨ g = "female" ∨ g = "others") →
      0 < hq → 0 < w →
      Patient.mk? [("id", .str i), ("name", .str n), ("city", .str c),
        ("age", .int a), ("gender", .str g), ("height", .rat hq),
        ("weight", .rat w)] = .ok ⟨i, n, c, a, g, hq, w⟩ := by
  intro i n c g a hq w h1 h2 h3 h4 h5
  exact mk?_of_entries _ i n c a g hq w rfl rfl rfl rfl rfl rfl rfl h1 h2 h3
    h4 h5

/-- Witness for C6 (amended) with empty name and city. -/
theorem C6_witness :
    Patient.mk? [("id", .str "P9"), ("name", .str ""), ("city", .str ""),
      ("age", .int 30), ("gender", .str "others"), ("height", .rat 2),
      ("weight", .rat 80)] = .ok ⟨"P9", "", "", 30, "others", 2, 80⟩ :=
  C6_empty_name_city_accepted "P9" "" "" "others" 30 2 80 (by decide)
    (by decide) (Or.inr (Or.inr rfl)) (by norm_num) (by norm_num)

/-- C2 as stated is false on the code: with sort_by bmi the sort key is the
raw stored bmi entry, not a value computed from height and weight.  Record
recA has no stored bmi (on-the-fly bmi 35.16) and recB has stored bmi 20
(on-the-fly bmi 22.86); an ascending sort returns recA before recB, the
opposite of the on-the-fly order. -/
theorem C2_counterexample :
    sort_patients [("A", recA), ("B", recB)] "bmi" "asc" =
      .ok [recA, recB] ∧
    specOnTheFlyBmi recB < specOnTheFlyBmi recA := by
  refine ⟨sort_demo_asc, ?_⟩
  rw [specOnTheFlyBmi_recA, specOnTheFlyBmi_recB]
  norm_num

/-- C2 (amended): for sort_by bmi with a valid order, sort returns a
permutation of the stored records ordered by the raw stored bmi value
(ascending or descending per order), where a record with no stored bmi entry
contributes the fallback sort key 0. -/
theorem C2_sort_reads_stored_bmi :
    ∀ (store : Store) (ord : String), ord = "asc" ∨ ord = "desc" →
      ∀ l, sort_patients store "bmi" ord = .ok l →
        l.Perm (store.map Prod.snd) ∧
        (ord = "asc" →
          l.Pairwise (fun a b => Rec.sortVal a "bmi" ≤ Rec.sortVal b "bmi")) ∧
        (ord = "desc" →
          l.Pairwise (fun a b => Rec.sortVal b "bmi" ≤ Rec.sortVal a "bmi")) ∧
        (∀ r : Rec, List.lookup "bmi" r = none → Rec.sortVal r "bmi" = 0) := by
  intro store ord hord l hl
  rcases hord with h | h
  · subst h
    rw [sort_patients_asc] at hl
    injection hl with hleq
    subst hleq
    refine ⟨List.mergeSort_perm _ _, fun _ => ?_, fun hc => absurd hc
      (by decide), fun r hr => by unfold Rec.sortVal; rw [hr]⟩
    have hp := @List.sorted_mergeSort Rec bmiAscLe
      (fun a b c hab hbc => decide_eq_true
        (le_trans (of_decide_eq_true hab) (of_decide_eq_true hbc)))
      (fun a b => by
        simp only [bmiAscLe, Bool.or_eq_true, decide_eq_true_eq]
        exact le_total (Rec.sortVal a "bmi") (Rec.sortVal b "bmi"))
      (store.map Prod.snd)
    exact hp.imp fun hab => of_decide_eq_true hab
  · subst h
    rw [sort_patients_desc] at hl
    injection hl with hleq
    subst hleq
    refine ⟨List.mergeSort_perm _ _, fun hc => absurd hc (by decide),
      fun _ => ?_, fun r hr => by unfold Rec.sortVal; rw [hr]⟩
    have hp := @List.sorted_mergeSort Rec bmiDescLe
      (fun a b c hab hbc => decide_eq_true
        (le_trans (of_decide_eq_true hbc) (of_decide_eq_true hab)))
      (fun a b => by
        simp only [bmiDescLe, Bool.or_eq_true, decide_eq_true_eq]
        exact le_total (Rec.sortVal b "bmi") (Rec.sortVal a "bmi"))
      (store.map Prod.snd)
    exact hp.imp fun hab => of_decide_eq_true hab

/-- Witness for C2 (amended) on the two-record demonstration store. -/
theorem C2_witness :
    [recA, recB].Perm ([("A", recA), ("B", recB)].map Prod.snd) ∧
    ("asc" = "asc" →
      List.Pairwise (fun a b => Rec.sortVal a "bmi" ≤ Rec.sortVal b "bmi")
        [recA, recB]) ∧
    ("asc" = "desc" →
      List.Pairwise (fun a b => Rec.sortVal b "bmi" ≤ Rec.sortVal a "bmi")
        [recA, recB]) ∧
    (∀ r : Rec, List.lookup "bmi" r = none → Rec.sortVal r "bmi" = 0) :=
  C2_sort_reads_stored_bmi [("A", recA), ("B", recB)] "asc" (Or.inl rfl)
    [recA, recB] sort_demo_asc

/-- C7: when the id is present but the merged record fails full Patient
validation, update fails with the ValidationError and returns the store
exactly as it was — no field of the change is applied. -/
theorem C7_invalid_update_unchanged :
    ∀ (store : Store) (pid : String) (u : PatientUpdate) (ex : Rec)
      (es : List String),
      List.lookup pid store = some ex →
      Patient.mk? (setKey (dictMerge ex u.dumpSet) "id" (Value.str pid)) =
        .error es →
      update_patient store pid u = (.error (.validationError es), store) := by
  intro store pid u ex es hs hmk
  unfold update_patient
  rw [hs]
  simp only [hmk]

/-- Witness for C7: updating the demo patient with age 150 (accepted by the
payload model, out of range for Patient) fails and preserves the store. -/
theorem C7_witness :
    update_patient [("P001", demoPatient.dumpNoId)] "P001" demoUpdateAge150 =
      (.error (.validationError ["age: Input should be less than 120"]),
        [("P001", demoPatient.dumpNoId)]) := by
  have hmk : Patient.mk? (setKey
      (dictMerge demoPatient.dumpNoId demoUpdateAge150.dumpSet) "id"
      (Value.str "P001")) =
      .error ["age: Input should be less than 120"] := by
    apply mk?_err_age _ "P001" "Ananya" "Guwahati" 150 "female" (7 / 4) 70
    · exact lookup_setKey_self _ "id" (Value.str "P001")
    · rw [lookup_setKey_ne _ _ _ _ (by decide)]
      rfl
    · rw [lookup_setKey_ne _ _ _ _ (by decide)]
      rfl
    · rw [lookup_setKey_ne _ _ _ _ (by decide)]
      rfl
    · rw [lookup_setKey_ne _ _ _ _ (by decide)]
      rfl
    · rw [lookup_setKey_ne _ _ _ _ (by decide)]
      rfl
    · rw [lookup_setKey_ne _ _ _ _ (by decide)]
      rfl
    · decide
    · exact Or.inr (Or.inl rfl)
    · norm_num
    · norm_num
  exact C7_invalid_update_unchanged [("P001", demoPatient.dumpNoId)] "P001"
    demoUpdateAge150 demoPatient.dumpNoId _ rfl hmk

/-- C8: create with a pre-existing id fails with the duplicate-id error and
returns the store completely unchanged (the save never runs). -/
theorem C8_create_duplicate_unchanged :
    ∀ (store : Store) (p : Patient), hasKey store p.id = true →
      create_patient store p =
        (.error (.httpError 400 "Patient already exists"), store) := by
  intro store p h
  unfold create_patient
  rw [if_pos h]

/-- Witness for C8: re-creating the demo patient over the demo store fails
and preserves the store. -/
theorem C8_witness :
    create_patient demoStore demoPatient =
      (.error (.httpError 400 "Patient already exists"), demoStore) :=
  C8_create_duplicate_unchanged demoStore demoPatient rfl

/-- C9 as stated is false on the code: the stored record also holds the
derived fields, and an update that supplies only the weight rewrites the
stored bmi entry (22.86 before, 29.39 after) even though bmi was not a
supplied field. -/
theorem C9_counterexample :
    List.lookup "bmi" demoPatient.dumpNoId = some (.rat (1143 / 50)) ∧
    List.lookup "P001"
        (update_patient [("P001", demoPatient.dumpNoId)] "P001"
          demoUpdateWeight).2 =
      some (applyUpdate demoPatient demoUpdateWeight).dumpNoId ∧
    List.lookup "bmi" (applyUpdate demoPatient demoUpdateWeight).dumpNoId =
      some (.rat (2939 / 100)) ∧
    (1143 / 50 : ℚ) ≠ 2939 / 100 := by
  have hv : (applyUpdate demoPatient demoUpdateWeight).Valid :=
    ⟨by decide, by decide, Or.inr (Or.inl rfl),
     show (0 : ℚ) < 7 / 4 from by norm_num,
     show (0 : ℚ) < 90 from by norm_num⟩
  refine ⟨?_, ?_, ?_, by norm_num⟩
  · show some (Value.rat demoPatient.bmi) = _
    rw [demoPatient_bmi]
  · rw [update_patient_ok [("P001", demoPatient.dumpNoId)] "P001" demoPatient
      demoUpdateWeight rfl rfl hv]
    show List.lookup "P001" (setKey [("P001", demoPatient.dumpNoId)] "P001"
      (applyUpdate demoPatient demoUpdateWeight).dumpNoId) = _
    exact lookup_setKey_self _ _ _
  · show some (Value.rat (applyUpdate demoPatient demoUpdateWeight).bmi) = _
    rw [demoUpdatedWeight_bmi]

/-- C9 (amended): for a well-formed stored record and a partial update whose
merge passes validation, update stores the dump of exactly the merged
patient: each of the six updatable fields is the supplied value when present
and the previous value otherwise, the id is forced to the path id, every
other store entry is untouched — while the persisted derived entries bmi and
verdict are recomputed from the merged height and weight. -/
theorem C9_update_merge :
    ∀ (store : Store) (pid : String) (q : Patient) (u : PatientUpdate),
      List.lookup pid store = some q.dumpNoId → q.id = pid →
      (applyUpdate q u).Valid →
      update_patient store pid u =
        (.ok (applyUpdate q u),
          setKey store pid (applyUpdate q u).dumpNoId) ∧
      (applyUpdate q u).id = pid ∧
      (applyUpdate q u).name = u.name.getD q.name ∧
      (applyUpdate q u).city = u.city.getD q.city ∧
      (applyUpdate q u).age = u.age.getD q.age ∧
      (applyUpdate q u).gender = u.gender.getD q.gender ∧
      (applyUpdate q u).height = u.height.getD q.height ∧
      (applyUpdate q u).weight = u.weight.getD q.weight ∧
      ∀ k, k ≠ pid →
        List.lookup k (update_patient store pid u).2 = List.lookup k store := by
  intro store pid q u hs hid hv
  refine ⟨update_patient_ok store pid q u hs hid hv, hid, rfl, rfl, rfl, rfl,
    rfl, rfl, ?_⟩
  intro k hk
  rw [update_patient_ok store pid q u hs hid hv]
  exact lookup_setKey_ne store pid k _ hk

/-- Witness for C9 (amended): a city-only update of the demo patient. -/
theorem C9_witness :
    update_patient [("P001", demoPatient.dumpNoId)] "P001" demoUpdateCity =
      (.ok (applyUpdate demoPatient demoUpdateCity),
        setKey [("P001", demoPatient.dumpNoId)] "P001"
          (applyUpdate demoPatient demoUpdateCity).dumpNoId) :=
  (C9_update_merge [("P001", demoPatient.dumpNoId)] "P001" demoPatient
    demoUpdateCity rfl rfl
    ⟨by decide, by decide, Or.inr (Or.inl rfl),
     show (0 : ℚ) < 7 / 4 from by norm_num,
     show (0 : ℚ) < 70 from by norm_num⟩).1

/-- C10: deleting a present id removes exactly that entry: delete reports
success, the result holds nothing under the id, and every other key maps to
exactly the value it mapped to before. -/
theorem C10_delete_frame :
    ∀ (store : Store) (pid : String), hasKey store pid = true →
      (delete_patient store pid).1 = .ok "patient deleted" ∧
      (delete_patient store pid).2 = delKey store pid ∧
      List.lookup pid (delete_patient store pid).2 = none ∧
      ∀ k, k ≠ pid → List.lookup k (delete_patient store pid).2 =
        List.lookup k store := by
  intro store pid h
  unfold delete_patient
  rw [if_pos h]
  exact ⟨rfl, rfl, lookup_delKey_self store pid,
    fun k hk => lookup_delKey_ne store pid k hk⟩

/-- Witness for C10 on the two-record demonstration store. -/
theorem C10_witness :
    (delete_patient demoStore "P001").1 = .ok "patient deleted" ∧
    List.lookup "P001" (delete_patient demoStore "P001").2 = none ∧
    List.lookup "P1" (delete_patient demoStore "P001").2 =
      List.lookup "P1" demoStore :=
  ⟨(C10_delete_frame demoStore "P001" rfl).1,
   (C10_delete_frame demoStore "P001" rfl).2.2.1,
   (C10_delete_frame demoStore "P001" rfl).2.2.2 "P1" (by decide)⟩
